import Mathlib

/-!
Verification development for the response-normalization and analysis-orchestration
pipeline of the Jedi-Interview-Trainer repository.

The JavaScript source is shallowly embedded:
* JavaScript runtime values are modelled by `JSValue` (numbers as exact rationals;
  IEEE-754 rounding and `NaN` are outside the model).
* Property access `o.k` (which throws `TypeError` on `null`/`undefined`) is
  `propE`; optional chaining `o?.k` is `JSValue.optChain`.
* Code that can throw is modelled in `Except String`; `try/catch` is a `match`
  on the `Except` result.
* `JSON.parse` is modelled by `parseJSON`, a standard recursive-descent JSON
  reader; the regex `/\x7b[\s\S]*\x7d/` extraction of
  `parseAndValidateResponse` is `extractJson` (first brace through last closing
  brace, whole string when no such pair exists).

Embedded source files: `backend/services/response-parser.js` (normalizer),
`backend/services/deepseek-enhanced.js` / `services/ai-service.js`
(orchestrator `analyzeTranscript`), `backend/services/demo-data/demo-analysis.js`
(offline demo generator).
-/

/-- Model of a JavaScript runtime value.  Numbers are exact rationals. -/
inductive JSValue where
  | undefined : JSValue
  | null : JSValue
  | bool (b : Bool) : JSValue
  | num (q : ℚ) : JSValue
  | str (s : String) : JSValue
  | arr (xs : List JSValue) : JSValue
  | obj (fields : List (String × JSValue)) : JSValue

/-- Look a key up in an object's field list; JavaScript object construction lets a
later duplicate key overwrite an earlier one, so the LAST binding wins. -/
def getField (fs : List (String × JSValue)) (k : String) : JSValue :=
  fs.foldl (fun acc p => if p.1 = k then p.2 else acc) JSValue.undefined

/-- `o.k` as a total read: `undefined` when the receiver is not an object.
Use only where the receiver is known not to be nullish. -/
def JSValue.jget : JSValue → String → JSValue
  | .obj fs, k => getField fs k
  | _, _ => .undefined

/-- Property access `o.k`: throws `TypeError` on `null`/`undefined` receivers,
yields `undefined` on non-object receivers, looks the key up on objects. -/
def propE : JSValue → String → Except String JSValue
  | .undefined, _ => .error "TypeError: cannot read properties of undefined"
  | .null, _ => .error "TypeError: cannot read properties of null"
  | .obj fs, k => .ok (getField fs k)
  | _, _ => .ok .undefined

/-- Optional chaining `o?.k`: `undefined` on nullish receivers, never throws. -/
def JSValue.optChain : JSValue → String → JSValue
  | .undefined, _ => .undefined
  | .null, _ => .undefined
  | .obj fs, k => getField fs k
  | _, _ => .undefined

/-- JavaScript truthiness (`NaN` is outside the model). -/
def JSValue.truthy : JSValue → Bool
  | .undefined => false
  | .null => false
  | .bool b => b
  | .num q => decide (q ≠ 0)
  | .str s => decide (s ≠ "")
  | .arr _ => true
  | .obj _ => true

/-- JavaScript `a || b`. -/
def jsOr (a b : JSValue) : JSValue := if a.truthy then a else b

/-- `typeof v === "number"`. -/
def isNum : JSValue → Bool
  | .num _ => true
  | _ => false

/-- `Array.isArray v`. -/
def isArr : JSValue → Bool
  | .arr _ => true
  | _ => false

/-- `list.includes(v)` for a list of string literals (strict equality). -/
def isStrIn (v : JSValue) (l : List String) : Bool :=
  match v with
  | .str s => l.contains s
  | _ => false

/-- `v.slice(0, n)` when `Array.isArray v`, else the default `[]`. -/
def arrSlice (v : JSValue) (n : Nat) : JSValue :=
  match v with
  | .arr xs => .arr (xs.take n)
  | _ => .arr []

/-- `xs.map f` where `f` may throw: stops at the first thrown error,
exactly like a JavaScript `Array.prototype.map` callback that throws. -/
def mapE (f : JSValue → Except String JSValue) : List JSValue → Except String (List JSValue)
  | [] => .ok []
  | x :: xs =>
    match f x with
    | .error e => .error e
    | .ok y =>
      match mapE f xs with
      | .error e => .error e
      | .ok ys => .ok (y :: ys)

/-! ## Per-field validators (`backend/services/response-parser.js`) -/

/-- Body of the `map` callback in `validateHighlights`.  The receiver accesses
`h.text` etc. directly, so a nullish item throws. -/
def validateHighlightItem (h : JSValue) : Except String JSValue := do
  let t ← propE h "text"
  let c ← propE h "category"
  let conf ← propE h "confidence"
  let r ← propE h "reasoning"
  pure (JSValue.obj [
    ("text", jsOr t (.str "Analysis completed")),
    ("category", jsOr c (.str "general")),
    ("confidence", if isNum conf then conf else .num (mkRat 7 10)),
    ("reasoning", jsOr r (.str "Identified as positive indicator"))])

/-- `validateHighlights`: non-arrays default to `[]`; arrays are truncated to
6 items and each item is normalized per field. -/
def validateHighlights (highlights : JSValue) : Except String JSValue :=
  match highlights with
  | .arr xs =>
    match mapE validateHighlightItem (xs.take 6) with
    | .error e => .error e
    | .ok ys => .ok (.arr ys)
  | _ => .ok (.arr [])

/-- Body of the `map` callback in `validateImprovements`. -/
def validateImprovementItem (i : JSValue) : Except String JSValue := do
  let t ← propE i "text"
  let s ← propE i "suggestion"
  let p ← propE i "priority"
  let c ← propE i "category"
  pure (JSValue.obj [
    ("text", jsOr t (.str "Area for development identified")),
    ("suggestion", jsOr s (.str "Recommend focused practice")),
    ("priority", if isStrIn p ["high", "medium", "low"] then p else .str "medium"),
    ("category", jsOr c (.str "general"))])

/-- `validateImprovements`: cap 4, per-item normalization. -/
def validateImprovements (improvements : JSValue) : Except String JSValue :=
  match improvements with
  | .arr xs =>
    match mapE validateImprovementItem (xs.take 4) with
    | .error e => .error e
    | .ok ys => .ok (.arr ys)
  | _ => .ok (.arr [])

/-- `validateTechnicalAssessment`: uses only optional chaining, never throws. -/
def validateTechnicalAssessment (tech : JSValue) : JSValue :=
  .obj [
    ("level", if isStrIn (tech.optChain "level") ["junior", "mid", "senior", "staff", "principal"]
              then tech.optChain "level" else .str "mid"),
    ("skills_demonstrated", arrSlice (tech.optChain "skills_demonstrated") 8),
    ("knowledge_gaps", arrSlice (tech.optChain "knowledge_gaps") 4),
    ("problem_solving_approach",
      jsOr (tech.optChain "problem_solving_approach")
           (.str "Structured problem-solving approach observed"))]

/-- `validateCommunicationAnalysis`. -/
def validateCommunicationAnalysis (comm : JSValue) : JSValue :=
  .obj [
    ("clarity", if isStrIn (comm.optChain "clarity") ["poor", "fair", "good", "excellent"]
                then comm.optChain "clarity" else .str "good"),
    ("structure", jsOr (comm.optChain "structure") (.str "Well-organized responses")),
    ("listening", jsOr (comm.optChain "listening") (.str "Good comprehension of questions")),
    ("questioning", jsOr (comm.optChain "questioning") (.str "Asked relevant follow-up questions"))]

/-- `validateEntities`. -/
def validateEntities (entities : JSValue) : JSValue :=
  .obj [
    ("technologies", arrSlice (entities.optChain "technologies") 10),
    ("companies", arrSlice (entities.optChain "companies") 5),
    ("projects", arrSlice (entities.optChain "projects") 5),
    ("methodologies", arrSlice (entities.optChain "methodologies") 5)]

/-- Body of the `map` callback in `validateInterviewFlow`. -/
def validateFlowItem (f : JSValue) : Except String JSValue := do
  let s ← propE f "section"
  let su ← propE f "summary"
  let km ← propE f "key_moments"
  let d ← propE f "duration_estimate"
  pure (JSValue.obj [
    ("section", jsOr s (.str "discussion")),
    ("summary", jsOr su (.str "Interview section covered")),
    ("key_moments", arrSlice km 3),
    ("duration_estimate", jsOr d (.str "5-10 minutes"))])

/-- `validateInterviewFlow`: cap 8, per-item normalization. -/
def validateInterviewFlow (flow : JSValue) : Except String JSValue :=
  match flow with
  | .arr xs =>
    match mapE validateFlowItem (xs.take 8) with
    | .error e => .error e
    | .ok ys => .ok (.arr ys)
  | _ => .ok (.arr [])

/-- `Math.max(1, Math.min(10, q))`. -/
def clamp110 (q : ℚ) : ℚ := max 1 (min 10 q)

/-- `typeof rec?.confidence === 'number' ? Math.max(1, Math.min(10, rec.confidence)) : 7`. -/
def recConfidence : JSValue → JSValue
  | .num q => .num (clamp110 q)
  | _ => .num 7

/-- `Array.isArray(rec?.key_strengths) ? rec.key_strengths.slice(0, 4) : ['Analysis completed']`. -/
def recKeyStrengths : JSValue → JSValue
  | .arr xs => .arr (xs.take 4)
  | _ => .arr [.str "Analysis completed"]

/-- `validateOverallRecommendation`: optional chaining only, never throws. -/
def validateOverallRecommendation (rec : JSValue) : JSValue :=
  .obj [
    ("decision", if isStrIn (rec.optChain "decision") ["strong_hire", "hire", "maybe", "no_hire"]
                 then rec.optChain "decision" else .str "maybe"),
    ("confidence", recConfidence (rec.optChain "confidence")),
    ("key_strengths", recKeyStrengths (rec.optChain "key_strengths")),
    ("main_concerns", arrSlice (rec.optChain "main_concerns") 3),
    ("cultural_fit", jsOr (rec.optChain "cultural_fit")
                          (.str "Positive indicators for team collaboration")),
    ("next_steps", jsOr (rec.optChain "next_steps")
                        (.str "Recommend technical deep-dive interview"))]

/-- `validateInterviewQuality`. -/
def validateInterviewQuality (quality : JSValue) : JSValue :=
  .obj [
    ("questions_effectiveness",
      jsOr (quality.optChain "questions_effectiveness")
           (.str "Standard interview questions covered relevant topics")),
    ("areas_not_explored", arrSlice (quality.optChain "areas_not_explored") 3),
    ("suggested_follow_ups", arrSlice (quality.optChain "suggested_follow_ups") 4)]

/-- The body of the `try` block of `parseAndValidateResponse` after `JSON.parse`
succeeded: direct accesses `parsed.highlights`, ... (which throw on a nullish
`parsed`) and the eight per-field validators, in source order. -/
def validateAll (parsed : JSValue) : Except String JSValue := do
  let hRaw ← propE parsed "highlights"
  let h ← validateHighlights hRaw
  let iRaw ← propE parsed "improvements"
  let i ← validateImprovements iRaw
  let taRaw ← propE parsed "technical_assessment"
  let caRaw ← propE parsed "communication_analysis"
  let enRaw ← propE parsed "entities"
  let flRaw ← propE parsed "interview_flow"
  let fl ← validateInterviewFlow flRaw
  let orRaw ← propE parsed "overall_recommendation"
  let iqRaw ← propE parsed "interview_quality"
  pure (JSValue.obj [
    ("highlights", h),
    ("improvements", i),
    ("technical_assessment", validateTechnicalAssessment taRaw),
    ("communication_analysis", validateCommunicationAnalysis caRaw),
    ("entities", validateEntities enRaw),
    ("interview_flow", fl),
    ("overall_recommendation", validateOverallRecommendation orRaw),
    ("interview_quality", validateInterviewQuality iqRaw)])

/-- `createFallbackAnalysis`: the structured fallback returned when parsing or
validation throws.  The two arguments only feed `console` logging, not the
returned object. -/
def createFallbackAnalysis (_transcript _rawResponse : String) : JSValue :=
  .obj [
    ("highlights", .arr [.obj [
      ("text", .str "AI analysis completed but response parsing failed"),
      ("category", .str "general"),
      ("confidence", .num (mkRat 1 2)),
      ("reasoning", .str "Technical issue with response format")]]),
    ("improvements", .arr [.obj [
      ("text", .str "Please retry the analysis"),
      ("suggestion", .str "The AI provided analysis but in an unexpected format"),
      ("priority", .str "high"),
      ("category", .str "technical")]]),
    ("technical_assessment", .obj [
      ("level", .str "unknown"),
      ("skills_demonstrated", .arr []),
      ("knowledge_gaps", .arr [.str "Analysis incomplete"]),
      ("problem_solving_approach", .str "Unable to assess due to parsing error")]),
    ("communication_analysis", .obj [
      ("clarity", .str "unknown"),
      ("structure", .str "Unable to assess"),
      ("listening", .str "Unable to assess"),
      ("questioning", .str "Unable to assess")]),
    ("entities", .obj [
      ("technologies", .arr []),
      ("companies", .arr []),
      ("projects", .arr []),
      ("methodologies", .arr [])]),
    ("interview_flow", .arr []),
    ("overall_recommendation", .obj [
      ("decision", .str "maybe"),
      ("confidence", .num 5),
      ("key_strengths", .arr [.str "Requires manual review"]),
      ("main_concerns", .arr [.str "Analysis parsing failed"]),
      ("cultural_fit", .str "Unable to assess"),
      ("next_steps", .str "Manual review recommended")]),
    ("interview_quality", .obj [
      ("questions_effectiveness", .str "Unable to assess due to technical issue"),
      ("areas_not_explored", .arr []),
      ("suggested_follow_ups", .arr [])])]

/-! ## Model of `JSON.parse`

A standard recursive-descent JSON reader producing `JSValue`.  Numbers are read
exactly into `ℚ` (the IEEE-754 rounding that `JSON.parse` performs is outside
the model); strings support the JSON escapes, with `\uXXXX` mapped through
`Char.ofNat`.  Recursion is fueled; the fuel passed at top level exceeds the
input length, so it never runs out on real input. -/

/-- JSON insignificant whitespace. -/
def isJsonWs (c : Char) : Bool := c = ' ' || c = '\t' || c = '\n' || c = '\r'

/-- Skip insignificant whitespace. -/
def skipWs (cs : List Char) : List Char := cs.dropWhile isJsonWs

/-- Hex digit value. -/
def hexVal (c : Char) : Option Nat :=
  if '0' ≤ c ∧ c ≤ '9' then some (c.toNat - '0'.toNat)
  else if 'a' ≤ c ∧ c ≤ 'f' then some (c.toNat - 'a'.toNat + 10)
  else if 'A' ≤ c ∧ c ≤ 'F' then some (c.toNat - 'A'.toNat + 10)
  else none

/-- Read the body of a JSON string after the opening quote, returning the decoded
string and the input following the closing quote. -/
def parseStringBody : Nat → List Char → List Char → Except String (String × List Char)
  | 0, _, _ => .error "string: out of fuel"
  | _, acc, '"' :: rest => .ok (String.mk acc.reverse, rest)
  | fuel + 1, acc, '\\' :: esc :: rest =>
    match esc with
    | '"' => parseStringBody fuel ('"' :: acc) rest
    | '\\' => parseStringBody fuel ('\\' :: acc) rest
    | '/' => parseStringBody fuel ('/' :: acc) rest
    | 'b' => parseStringBody fuel ('\x08' :: acc) rest
    | 'f' => parseStringBody fuel ('\x0c' :: acc) rest
    | 'n' => parseStringBody fuel ('\n' :: acc) rest
    | 'r' => parseStringBody fuel ('\r' :: acc) rest
    | 't' => parseStringBody fuel ('\t' :: acc) rest
    | 'u' =>
      match rest with
      | a :: b :: c :: d :: rest2 =>
        match hexVal a, hexVal b, hexVal c, hexVal d with
        | some x, some y, some z, some w =>
          parseStringBody fuel (Char.ofNat (x * 4096 + y * 256 + z * 16 + w) :: acc) rest2
        | _, _, _, _ => .error "string: bad unicode escape"
      | _ => .error "string: truncated unicode escape"
    | _ => .error "string: bad escape"
  | fuel + 1, acc, c :: rest => parseStringBody fuel (c :: acc) rest
  | _, _, [] => .error "string: unterminated"

/-- Digits to a natural number (most significant first). -/
def digitsToNat (ds : List Char) : Nat :=
  ds.foldl (fun acc c => acc * 10 + (c.toNat - '0'.toNat)) 0

/-- Build the exact rational `± mantissa * 10 ^ (exp10 - fracLen)` using only
integer arithmetic and one `mkRat` (so that concrete runs reduce in the kernel). -/
def ratOfParts (neg : Bool) (mantissa : Nat) (fracLen : Nat) (expNeg : Bool) (e : Nat) : ℚ :=
  let num : Int := if neg then -(mantissa : Int) else (mantissa : Int)
  if expNeg then mkRat num (10 ^ (fracLen + e))
  else if e ≤ fracLen then mkRat num (10 ^ (fracLen - e))
  else mkRat (num * (10 : Int) ^ (e - fracLen)) 1

/-- Read a JSON number (sign, integer part, optional fraction, optional exponent)
into an exact rational. -/
def parseNumber (cs : List Char) : Except String (ℚ × List Char) :=
  let (neg, cs1) := match cs with
    | '-' :: rest => (true, rest)
    | _ => (false, cs)
  let intDigits := cs1.takeWhile Char.isDigit
  let cs2 := cs1.dropWhile Char.isDigit
  if intDigits.isEmpty then .error "number: no digits" else
  let (fracDigits, cs3) : List Char × List Char := match cs2 with
    | '.' :: rest => (rest.takeWhile Char.isDigit, rest.dropWhile Char.isDigit)
    | _ => ([], cs2)
  let mantissa := digitsToNat (intDigits ++ fracDigits)
  match cs3 with
  | 'e' :: rest | 'E' :: rest =>
    let (eneg, r1) := match rest with
      | '-' :: r => (true, r)
      | '+' :: r => (false, r)
      | _ => (false, rest)
    let eDigits := r1.takeWhile Char.isDigit
    if eDigits.isEmpty then .error "number: empty exponent" else
    .ok (ratOfParts neg mantissa fracDigits.length eneg (digitsToNat eDigits),
         r1.dropWhile Char.isDigit)
  | _ => .ok (ratOfParts neg mantissa fracDigits.length false 0, cs3)

mutual
/-- Read one JSON value. -/
def parseValue : Nat → List Char → Except String (JSValue × List Char)
  | 0, _ => .error "value: out of fuel"
  | fuel + 1, cs =>
    match skipWs cs with
    | [] => .error "value: unexpected end of input"
    | 'n' :: 'u' :: 'l' :: 'l' :: rest => .ok (.null, rest)
    | 't' :: 'r' :: 'u' :: 'e' :: rest => .ok (.bool true, rest)
    | 'f' :: 'a' :: 'l' :: 's' :: 'e' :: rest => .ok (.bool false, rest)
    | '"' :: rest =>
      match parseStringBody (fuel + 1) [] rest with
      | .error e => .error e
      | .ok (s, rest2) => .ok (.str s, rest2)
    | '[' :: rest =>
      (match skipWs rest with
       | ']' :: rest2 => .ok (.arr [], rest2)
       | other => match parseElems fuel other with
         | .error e => .error e
         | .ok (xs, rest2) => .ok (.arr xs, rest2))
    | '{' :: rest =>
      (match skipWs rest with
       | '}' :: rest2 => .ok (.obj [], rest2)
       | other => match parseMembers fuel other with
         | .error e => .error e
         | .ok (fs, rest2) => .ok (.obj fs, rest2))
    | c :: rest =>
      if c = '-' || c.isDigit then
        match parseNumber (c :: rest) with
        | .error e => .error e
        | .ok (q, rest2) => .ok (.num q, rest2)
      else .error "value: unexpected character"

/-- Read the elements of a non-empty array, after the opening bracket. -/
def parseElems : Nat → List Char → Except String (List JSValue × List Char)
  | 0, _ => .error "array: out of fuel"
  | fuel + 1, cs =>
    match parseValue fuel cs with
    | .error e => .error e
    | .ok (v, rest) =>
      match skipWs rest with
      | ',' :: rest2 =>
        (match parseElems fuel rest2 with
         | .error e => .error e
         | .ok (vs, rest3) => .ok (v :: vs, rest3))
      | ']' :: rest2 => .ok ([v], rest2)
      | _ => .error "array: expected comma or closing bracket"

/-- Read the members of a non-empty object, after the opening brace.  A
duplicate key is kept in source order; lookups via `getField` take the last
binding, matching the last-wins behaviour of `JSON.parse`. -/
def parseMembers : Nat → List Char → Except String (List (String × JSValue) × List Char)
  | 0, _ => .error "object: out of fuel"
  | fuel + 1, cs =>
    match skipWs cs with
    | '"' :: rest =>
      (match parseStringBody (fuel + 1) [] rest with
       | .error e => .error e
       | .ok (k, rest2) =>
         match skipWs rest2 with
         | ':' :: rest3 =>
           (match parseValue fuel rest3 with
            | .error e => .error e
            | .ok (v, rest4) =>
              match skipWs rest4 with
              | ',' :: rest5 =>
                (match parseMembers fuel rest5 with
                 | .error e => .error e
                 | .ok (fs, rest6) => .ok ((k, v) :: fs, rest6))
              | '}' :: rest5 => .ok ([(k, v)], rest5)
              | _ => .error "object: expected comma or closing brace")
         | _ => .error "object: expected colon")
    | _ => .error "object: expected key"
end

/-- `JSON.parse`: read one value and require only whitespace after it. -/
def parseJSON (s : String) : Except String JSValue :=
  match parseValue (s.length + 16) s.toList with
  | .error e => .error e
  | .ok (v, rest) =>
    if (skipWs rest).isEmpty then .ok v else .error "parse: unexpected trailing characters"

/-! ## JSON extraction and `parseAndValidateResponse` -/

/-- Index of the last occurrence of `c`, if any. -/
def lastIdxOf (c : Char) (cs : List Char) : Option Nat :=
  match cs.reverse.findIdx? (· = c) with
  | some k => some (cs.length - 1 - k)
  | none => none

/-- `responseText.match(/\x7b[\s\S]*\x7d/)` followed by the fallback to the whole
text: the greedy regex matches from the first opening brace to the last closing
brace of the whole string (when that closing brace comes later); otherwise there
is no match and the whole text is used. -/
def extractJson (s : String) : String :=
  let cs := s.toList
  match cs.findIdx? (· = '{'), lastIdxOf '}' cs with
  | some i, some j => if i < j then String.mk ((cs.drop i).take (j - i + 1)) else s
  | _, _ => s

/-- The whole `try` block of `parseAndValidateResponse`: extraction, `JSON.parse`,
then the eight field validators; any thrown error surfaces as `.error`. -/
def tryParse (responseText : String) : Except String JSValue :=
  match parseJSON (extractJson responseText) with
  | .error e => .error e
  | .ok parsed => validateAll parsed

/-- `parseAndValidateResponse`: the `catch` turns any thrown error into the
structured fallback object. -/
def parseAndValidateResponse (responseText originalTranscript : String) : JSValue :=
  match tryParse responseText with
  | .ok validated => validated
  | .error _ => createFallbackAnalysis originalTranscript responseText




/-! ## String utilities used by the orchestrator and demo generator

`String.prototype.trim`, `split(/\s+/)`, `toLowerCase` and case-insensitive
substring tests (the `gi` regexes of the demo generator) are modelled over
character lists.  Whitespace is the ASCII whitespace of `Char.isWhitespace`;
lengths count characters (the sources only ever meet ASCII here). -/

/-- `s.trim()`. -/
def jsTrim (s : String) : String :=
  String.mk (((s.toList.dropWhile Char.isWhitespace).reverse.dropWhile Char.isWhitespace).reverse)

/-- Helper for `split(/\s+/)`: a maximal whitespace run separates tokens; a run
at either end contributes an empty token, as in JavaScript. -/
def splitWsAux : List Char → List Char → List String
  | [], acc => [String.mk acc.reverse]
  | c :: cs, acc =>
    if c.isWhitespace then
      String.mk acc.reverse :: splitWsAux (cs.dropWhile Char.isWhitespace) []
    else
      splitWsAux cs (c :: acc)
termination_by cs _ => cs.length
decreasing_by
  · exact Nat.lt_succ_of_le (List.dropWhile_sublist _).length_le
  · exact Nat.lt_succ_self _

/-- `s.split(/\s+/)`. -/
def jsSplitWs (s : String) : List String := splitWsAux s.toList []

/-- ASCII `s.toLowerCase()`. -/
def jsToLower (s : String) : String := String.mk (s.toList.map Char.toLower)

/-- Substring occurrence test over character lists. -/
def containsSubAux (pat : List Char) : List Char → Bool
  | [] => pat.isPrefixOf ([] : List Char)
  | c :: cs => pat.isPrefixOf (c :: cs) || containsSubAux pat cs

/-- `s.includes(pat)`. -/
def containsSub (s pat : String) : Bool := containsSubAux pat.toList s.toList

/-- `/a|b|.../gi.test(s)`: some alternative occurs, case-insensitively. -/
def regexTestAny (pats : List String) (s : String) : Bool :=
  pats.any (fun p => containsSub (jsToLower s) p)

/-! ## Offline demo generator
(`backend/services/demo-data/demo-analysis.js`, duplicated as `getDemoAnalysis`
in `services/ai-service.js`).  `generateDemoAnalysis` reads only the transcript
(the mentor and interview-type tags are unused by it); `new Date().toISOString()`
is modelled by the ambient `now` string. -/

/-- `DemoAnalysisGenerator.generateDemoAnalysis`. -/
def generateDemoAnalysis (transcript now : String) : JSValue :=
  let hasTech := regexTestAny
    ["javascript", "react", "node", "python", "java", "system", "design", "database", "api"]
    transcript
  let hasCompanies := regexTestAny
    ["google", "microsoft", "amazon", "apple", "meta", "netflix", "uber"] transcript
  let wordCount := (jsSplitWs transcript).length
  let isLongInterview := decide (wordCount > 800)
  .obj [
    ("success", .bool true),
    ("analysis", .obj [
      ("highlights", .arr [
        .obj [
          ("text", .str "Demonstrated clear communication throughout the interview"),
          ("category", .str "communication"),
          ("confidence", .num (mkRat 85 100)),
          ("reasoning", .str "Responses were well-structured and easy to follow")],
        .obj [
          ("text", .str (if hasTech then "Strong technical knowledge in modern web development"
                         else "Good fundamental technical understanding")),
          ("category", .str "technical_skill"),
          ("confidence", .num (if hasTech then mkRat 9 10 else mkRat 7 10)),
          ("reasoning", .str "Showed familiarity with relevant technologies and concepts")],
        .obj [
          ("text", .str "Proactive about asking clarifying questions"),
          ("category", .str "problem_solving"),
          ("confidence", .num (mkRat 8 10)),
          ("reasoning", .str "Good practice for understanding requirements before solving")]]),
      ("improvements", .arr [
        .obj [
          ("text", .str "Could provide more specific examples with quantified impact"),
          ("suggestion", .str "When describing achievements, include metrics like performance improvements or user impact"),
          ("priority", .str "medium"),
          ("category", .str "communication")],
        .obj [
          ("text", .str "Opportunity to discuss system design considerations"),
          ("suggestion", .str "Elaborate on scalability, reliability, and trade-offs in technical solutions"),
          ("priority", .str "medium"),
          ("category", .str "technical")]]),
      ("technical_assessment", .obj [
        ("level", .str (if hasTech then (if isLongInterview then "senior" else "mid") else "junior")),
        ("skills_demonstrated", .arr (if hasTech
          then [.str "JavaScript", .str "React", .str "Node.js", .str "System Design", .str "Problem Solving"]
          else [.str "Programming Fundamentals", .str "Logical Thinking"])),
        ("knowledge_gaps", .arr (if isLongInterview then []
          else [.str "Advanced system architecture", .str "Performance optimization"])),
        ("problem_solving_approach", .str "Systematic approach with good questioning technique")]),
      ("communication_analysis", .obj [
        ("clarity", .str "good"),
        ("structure", .str "Well-organized responses with clear examples"),
        ("listening", .str "Good comprehension and appropriate follow-up questions"),
        ("questioning", .str "Asked relevant questions about requirements and constraints")]),
      ("entities", .obj [
        ("technologies", .arr (if hasTech
          then [.str "JavaScript", .str "React", .str "Node.js", .str "Database", .str "API"]
          else [.str "Programming"])),
        ("companies", .arr (if hasCompanies
          then [.str "Google", .str "Microsoft", .str "Amazon"] else [.str "Tech Company"])),
        ("projects", .arr [.str "Web Application", .str "System Design"]),
        ("methodologies", .arr [.str "Agile", .str "Problem-Solving Process"])]),
      ("interview_flow", .arr [
        .obj [
          ("section", .str "introduction"),
          ("summary", .str "Background and experience discussion"),
          ("key_moments", .arr [.str "Professional background", .str "Key experiences"]),
          ("duration_estimate", .str "8-10 minutes")],
        .obj [
          ("section", .str "technical_questions"),
          ("summary", .str "Technical problem-solving and system design"),
          ("key_moments", .arr [.str "Approach explanation", .str "Technology choices",
            .str "Trade-off considerations"]),
          ("duration_estimate", .str "15-20 minutes")],
        .obj [
          ("section", .str "candidate_questions"),
          ("summary", .str "Questions about role and team"),
          ("key_moments", .arr [.str "Interest in team dynamics", .str "Growth opportunities"]),
          ("duration_estimate", .str "5-8 minutes")]]),
      ("overall_recommendation", .obj [
        ("decision", .str (if hasTech then "hire" else "maybe")),
        ("confidence", .num (if hasTech then 8 else 6)),
        ("key_strengths", .arr [
          .str "Clear communication skills",
          .str (if hasTech then "Strong technical foundation" else "Good learning potential"),
          .str "Collaborative approach"]),
        ("main_concerns", .arr (if isLongInterview then []
          else [.str "Limited experience with complex systems"])),
        ("cultural_fit", .str "Positive indicators for team collaboration and growth mindset"),
        ("next_steps", .str (if hasTech then "Technical deep-dive or system design round"
                             else "Pair programming or technical assessment"))]),
      ("interview_quality", .obj [
        ("questions_effectiveness", .str "Good coverage of technical and behavioral aspects"),
        ("areas_not_explored", .arr (if isLongInterview then []
          else [.str "Leadership experience", .str "Conflict resolution"])),
        ("suggested_follow_ups", .arr [.str "System design deep-dive", .str "Code review exercise",
          .str "Team collaboration scenarios"])])]),
    ("metadata", .obj [
      ("model", .str "Demo Mode - Enhanced Analysis"),
      ("timestamp", .str now),
      ("transcript_length", .num (mkRat (transcript.length : Int) 1)),
      ("demo_mode", .bool true),
      ("analysis_type", .str "fallback")])]

/-! ## AnalysisOrchestrator (`analyzeTranscript` of
`backend/services/deepseek-enhanced.js` / `services/ai-service.js`)

The two orchestrator copies agree on everything modelled here: the short-input
guard, the credentials guard, 3 attempts with linear backoff, attempt failure =
any throw inside `performAnalysis`, terminal fallback to the demo generator.
The ambient environment (API key, clock) and the network are explicit
parameters; the mentor/interview-type tags only feed prompt text and are
omitted. -/

def MAX_RETRIES : Nat := 3

def RETRY_DELAY : Nat := 1000

/-- Environment read by the orchestrator: `process.env.OPENROUTER_API_KEY`
(absent = `none`), the wall clock for `toISOString`, and the measured
`processing_time_ms`. -/
structure Env where
  apiKey : Option String
  now : String
  elapsedMs : ℚ

/-- Negation of `!key || key === placeholder`: credentials count as configured
when the variable is set, non-empty and not the placeholder sentinel. -/
def keyConfigured : Option String → Bool
  | none => false
  | some s => !(s = "" || s = "your_openrouter_api_key_here")

/-- A resolved `fetch` response: `ok`/`status`, the `response.text()` body used
in error messages, and the `response.json()` body. -/
structure FetchResponse where
  ok : Bool
  status : Nat
  bodyText : String
  bodyJson : JSValue

/-- `xs[n]` on a non-nullish receiver. -/
def jsIndex : JSValue → Nat → JSValue
  | .arr xs, n => xs.getD n .undefined
  | _, _ => .undefined

/-- The `return` value of a successful `performAnalysis` call. -/
def liveResult (env : Env) (transcript : String) (attempt : Nat)
    (analysis : JSValue) (totalTokens : JSValue) : JSValue :=
  .obj [
    ("success", .bool true),
    ("analysis", analysis),
    ("metadata", .obj [
      ("model", .str "deepseek/deepseek-r1-distill-llama-70b:free"),
      ("timestamp", .str env.now),
      ("processing_time_ms", .num env.elapsedMs),
      ("attempt_number", .num (mkRat (attempt : Int) 1)),
      ("transcript_length", .num (mkRat (transcript.length : Int) 1)),
      ("tokens_used", jsOr totalTokens (.str "unknown"))])]

/-- One attempt: `performAnalysis`.  A transport rejection, a non-2xx status,
a botched response shape, a non-string or empty content — each throws, which
the retry loop treats as attempt failure.  A successful attempt normalizes the
content through `parseAndValidateResponse` (which cannot throw). -/
def performAnalysis (env : Env) (transport : Nat → Except String FetchResponse)
    (transcript : String) (attempt : Nat) : Except String JSValue :=
  match transport attempt with
  | .error e => .error e
  | .ok resp =>
    if !resp.ok then .error "OpenRouter API error" else
    let data := resp.bodyJson
    match propE data "choices" with
    | .error e => .error e
    | .ok choices =>
      if !choices.truthy then .error "Invalid response structure from OpenRouter API" else
      let c0 := jsIndex choices 0
      if !c0.truthy then .error "Invalid response structure from OpenRouter API" else
      match propE c0 "message" with
      | .error e => .error e
      | .ok msg =>
        if !msg.truthy then .error "Invalid response structure from OpenRouter API" else
        match propE msg "content" with
        | .error e => .error e
        | .ok content =>
          match content with
          | .str raw =>
            let analysisText := jsTrim raw
            if analysisText = "" then .error "Empty response content from OpenRouter API"
            else .ok (liveResult env transcript attempt
              (parseAndValidateResponse analysisText transcript)
              ((data.optChain "usage").optChain "total_tokens"))
          | _ => .error "TypeError: content.trim is not a function"

/-- Bookkeeping used to state the no-upstream-call / no-delay properties:
how many transport calls were issued and the accumulated backoff sleep. -/
structure RunLog where
  calls : Nat
  delayMs : Nat

/-- The retry loop of `analyzeTranscript`.  The fuel argument mirrors the
bounded `for` loop; entered with fuel `MAX_RETRIES` and `attempt = 1`, the
`attempt === MAX_RETRIES` arm always fires before fuel can run out. -/
def runAttempts (env : Env) (transport : Nat → Except String FetchResponse)
    (transcript : String) : Nat → Nat → RunLog → Except String JSValue × RunLog
  | 0, _, log => (.error "loop exhausted", log)
  | fuel + 1, attempt, log =>
    let log1 : RunLog := ⟨log.calls + 1, log.delayMs⟩
    match performAnalysis env transport transcript attempt with
    | .ok result => (.ok result, log1)
    | .error _ =>
      if attempt = MAX_RETRIES then
        (.ok (generateDemoAnalysis transcript env.now), log1)
      else
        runAttempts env transport transcript fuel (attempt + 1)
          ⟨log1.calls, log1.delayMs + RETRY_DELAY * attempt⟩

/-- `analyzeTranscript`: short-input guard (`!transcript || transcript.trim().length < 50`),
credentials guard, then the bounded retry loop. -/
def analyzeTranscript (env : Env) (transport : Nat → Except String FetchResponse)
    (transcript : String) : Except String JSValue × RunLog :=
  if transcript = "" || decide ((jsTrim transcript).length < 50) then
    (.error "Transcript too short or empty for meaningful analysis", ⟨0, 0⟩)
  else if !keyConfigured env.apiKey then
    (.ok (generateDemoAnalysis transcript env.now), ⟨0, 0⟩)
  else
    runAttempts env transport transcript MAX_RETRIES 1 ⟨0, 0⟩

/-! ## Schema predicates used in the statements -/

/-- The eight top-level keys of an `AnalysisResult`. -/
def schemaKeys : List String :=
  ["highlights", "improvements", "technical_assessment", "communication_analysis",
   "entities", "interview_flow", "overall_recommendation", "interview_quality"]

/-- The value is an object carrying all eight top-level keys. -/
def hasAllKeys (v : JSValue) : Bool :=
  match v with
  | .obj fs => schemaKeys.all (fun k => fs.any (fun p => decide (p.1 = k)))
  | _ => false

/-- The enum fields that the per-field validators actually gate with an
`includes` check: technical level, communication clarity, recommendation
decision, and every improvement's priority. -/
def checkedEnumsOK (r : JSValue) : Bool :=
  isStrIn ((r.jget "technical_assessment").jget "level")
    ["junior", "mid", "senior", "staff", "principal"] &&
  isStrIn ((r.jget "communication_analysis").jget "clarity")
    ["poor", "fair", "good", "excellent"] &&
  isStrIn ((r.jget "overall_recommendation").jget "decision")
    ["strong_hire", "hire", "maybe", "no_hire"] &&
  (match r.jget "improvements" with
   | .arr ys => ys.all (fun y => isStrIn (y.jget "priority") ["high", "medium", "low"])
   | _ => false)

/-- Count of non-whitespace characters — the measure the specification's
short-input sentence speaks about. -/
def nonWsCount (s : String) : Nat := (s.toList.filter (fun c => !c.isWhitespace)).length

/-- A well-formed upstream reply carrying `content` as the single choice's
message text, with no `usage` object — used to state transport-success
scenarios. -/
def mkReply (content : String) : FetchResponse :=
  { ok := true, status := 200, bodyText := "",
    bodyJson := .obj [("choices",
      .arr [.obj [("message", .obj [("content", .str content)])]])] }

/-! ## Generic lemmas -/

theorem exbind_ok {α β : Type} {x : Except String α} {f : α → Except String β} {b : β}
    (h : x >>= f = .ok b) : ∃ a, x = .ok a ∧ f a = .ok b := by
  cases x with
  | ok a => exact ⟨a, rfl, h⟩
  | error e => simp [Bind.bind, Except.bind] at h

theorem mapE_ok_length {f : JSValue → Except String JSValue} :
    ∀ {l : List JSValue} {ys : List JSValue}, mapE f l = .ok ys → ys.length = l.length := by
  intro l
  induction l with
  | nil => intro ys h; simp [mapE] at h; simp [← h]
  | cons x xs ih =>
    intro ys h
    simp only [mapE] at h
    cases hfx : f x with
    | error e => rw [hfx] at h; simp at h
    | ok y =>
      rw [hfx] at h
      cases hrest : mapE f xs with
      | error e => rw [hrest] at h; simp at h
      | ok zs =>
        rw [hrest] at h
        simp at h
        simp [← h, List.length_cons, ih hrest]

theorem mapE_ok_forall {f : JSValue → Except String JSValue} :
    ∀ {l ys : List JSValue}, mapE f l = .ok ys → ∀ y ∈ ys, ∃ x ∈ l, f x = .ok y := by
  intro l
  induction l with
  | nil =>
    intro ys h
    simp only [mapE, Except.ok.injEq] at h
    subst h
    intro y hy
    simp at hy
  | cons x xs ih =>
    intro ys h
    simp only [mapE] at h
    cases hfx : f x with
    | error e => rw [hfx] at h; simp at h
    | ok y =>
      rw [hfx] at h
      cases hrest : mapE f xs with
      | error e => rw [hrest] at h; simp at h
      | ok zs =>
        rw [hrest] at h
        simp at h
        intro z hz
        rw [← h] at hz
        rcases List.mem_cons.1 hz with hzy | hzz
        · exact ⟨x, List.mem_cons_self _ _, by rw [← hzy] at hfx; exact hfx⟩
        · rcases ih hrest z hzz with ⟨w, hw, hfw⟩
          exact ⟨w, List.mem_cons_of_mem _ hw, hfw⟩

theorem mapE_ok_of_fixed {f : JSValue → Except String JSValue} :
    ∀ {l : List JSValue}, (∀ x ∈ l, f x = .ok x) → mapE f l = .ok l := by
  intro l
  induction l with
  | nil => intro _; rfl
  | cons x xs ih =>
    intro h
    simp only [mapE]
    rw [h x (List.mem_cons_self _ _), ih (fun y hy => h y (List.mem_cons_of_mem _ hy))]

theorem mapE_ok_pointwise {f : JSValue → Except String JSValue} :
    ∀ {l ys : List JSValue}, mapE f l = .ok ys →
      ys.length = l.length ∧ ∀ i (hi : i < ys.length) (hl : i < l.length),
        f (l.get ⟨i, hl⟩) = .ok (ys.get ⟨i, hi⟩) := by
  intro l
  induction l with
  | nil =>
    intro ys h
    simp only [mapE, Except.ok.injEq] at h
    subst h
    exact ⟨rfl, fun i hi _ => absurd hi (by simp)⟩
  | cons x xs ih =>
    intro ys h
    simp only [mapE] at h
    cases hfx : f x with
    | error e => rw [hfx] at h; simp at h
    | ok y =>
      rw [hfx] at h
      cases hrest : mapE f xs with
      | error e => rw [hrest] at h; simp at h
      | ok zs =>
        rw [hrest] at h
        simp at h
        subst h
        rcases ih hrest with ⟨hlen, hpt⟩
        refine ⟨by simp [hlen], ?_⟩
        intro i hi hl
        cases i with
        | zero => simpa using hfx
        | succ j =>
          simpa using hpt j (by simpa using hi) (by simpa using hl)

theorem jsOr_truthy {a b : JSValue} (hb : b.truthy = true) : (jsOr a b).truthy = true := by
  unfold jsOr
  split
  · assumption
  · exact hb

theorem jsOr_fixed {a b : JSValue} (ha : a.truthy = true) : jsOr a b = a := by
  simp [jsOr, ha]

theorem jsOr_idem {a b : JSValue} (hb : b.truthy = true) : jsOr (jsOr a b) b = jsOr a b :=
  jsOr_fixed (jsOr_truthy hb)

theorem enum_default_mem {v : JSValue} {l : List String} {d : String} (hd : l.contains d = true) :
    isStrIn (if isStrIn v l then v else .str d) l = true := by
  split
  · assumption
  · have hmem : d ∈ l := by simpa using hd
    simp [isStrIn, hmem]

theorem enum_keep {v : JSValue} {l : List String} {d : String}
    (h : isStrIn v l = true) : (if isStrIn v l then v else .str d) = v := by
  simp [h]

theorem enum_ite_idem (x : JSValue) (l : List String) (d : String) (hd : l.contains d = true) :
    (if isStrIn (if isStrIn x l then x else .str d) l
     then (if isStrIn x l then x else .str d) else .str d)
    = (if isStrIn x l then x else .str d) :=
  enum_keep (enum_default_mem hd)

theorem num_default_isNum (x : JSValue) (q : ℚ) :
    isNum (if isNum x then x else .num q) = true := by
  split
  · assumption
  · rfl

theorem num_keep {y : JSValue} {q : ℚ} (h : isNum y = true) :
    (if isNum y then y else .num q) = y := by
  simp [h]

theorem num_ite_idem (x : JSValue) (q : ℚ) :
    (if isNum (if isNum x then x else .num q) then (if isNum x then x else .num q) else .num q)
    = (if isNum x then x else .num q) :=
  num_keep (num_default_isNum x q)

theorem clamp110_ge : ∀ q : ℚ, 1 ≤ clamp110 q := fun _ => le_max_left _ _

theorem clamp110_le : ∀ q : ℚ, clamp110 q ≤ 10 := fun q =>
  max_le (by norm_num) (min_le_left _ _)

theorem clamp110_idem (q : ℚ) : clamp110 (clamp110 q) = clamp110 q := by
  unfold clamp110
  rw [min_eq_right (max_le (by norm_num) (min_le_left _ _)), ← max_assoc, max_self]

theorem arrSlice_isArr (v : JSValue) (n : Nat) : isArr (arrSlice v n) = true := by
  cases v <;> rfl

theorem arrSlice_idem (v : JSValue) (n : Nat) : arrSlice (arrSlice v n) n = arrSlice v n := by
  cases v <;> simp [arrSlice, List.take_take]

theorem propE_ok_jget {v : JSValue} {k : String} {y : JSValue}
    (h : propE v k = .ok y) : y = v.jget k := by
  cases v <;> simp [propE, JSValue.jget] at h ⊢ <;> exact h.symm

theorem validateHighlightItem_ok {v y : JSValue} (h : validateHighlightItem v = .ok y) :
    y = .obj [
      ("text", jsOr (v.jget "text") (.str "Analysis completed")),
      ("category", jsOr (v.jget "category") (.str "general")),
      ("confidence", if isNum (v.jget "confidence") then v.jget "confidence"
                     else .num (mkRat 7 10)),
      ("reasoning", jsOr (v.jget "reasoning") (.str "Identified as positive indicator"))] := by
  unfold validateHighlightItem at h
  obtain ⟨t, ht, h⟩ := exbind_ok h
  obtain ⟨c, hc, h⟩ := exbind_ok h
  obtain ⟨conf, hconf, h⟩ := exbind_ok h
  obtain ⟨r, hr, h⟩ := exbind_ok h
  rw [propE_ok_jget ht, propE_ok_jget hc, propE_ok_jget hconf, propE_ok_jget hr] at h
  simp only [pure, Except.pure, Except.ok.injEq] at h
  exact h.symm

theorem validateImprovementItem_ok {v y : JSValue} (h : validateImprovementItem v = .ok y) :
    y = .obj [
      ("text", jsOr (v.jget "text") (.str "Area for development identified")),
      ("suggestion", jsOr (v.jget "suggestion") (.str "Recommend focused practice")),
      ("priority", if isStrIn (v.jget "priority") ["high", "medium", "low"]
                   then v.jget "priority" else .str "medium"),
      ("category", jsOr (v.jget "category") (.str "general"))] := by
  unfold validateImprovementItem at h
  obtain ⟨t, ht, h⟩ := exbind_ok h
  obtain ⟨s, hs, h⟩ := exbind_ok h
  obtain ⟨p, hp, h⟩ := exbind_ok h
  obtain ⟨c, hc, h⟩ := exbind_ok h
  rw [propE_ok_jget ht, propE_ok_jget hs, propE_ok_jget hp, propE_ok_jget hc] at h
  simp only [pure, Except.pure, Except.ok.injEq] at h
  exact h.symm

theorem validateFlowItem_ok {v y : JSValue} (h : validateFlowItem v = .ok y) :
    y = .obj [
      ("section", jsOr (v.jget "section") (.str "discussion")),
      ("summary", jsOr (v.jget "summary") (.str "Interview section covered")),
      ("key_moments", arrSlice (v.jget "key_moments") 3),
      ("duration_estimate", jsOr (v.jget "duration_estimate") (.str "5-10 minutes"))] := by
  unfold validateFlowItem at h
  obtain ⟨s, hs, h⟩ := exbind_ok h
  obtain ⟨su, hsu, h⟩ := exbind_ok h
  obtain ⟨km, hkm, h⟩ := exbind_ok h
  obtain ⟨d, hd, h⟩ := exbind_ok h
  rw [propE_ok_jget hs, propE_ok_jget hsu, propE_ok_jget hkm, propE_ok_jget hd] at h
  simp only [pure, Except.pure, Except.ok.injEq] at h
  exact h.symm

theorem validateHighlightItem_fixed {v y : JSValue} (h : validateHighlightItem v = .ok y) :
    validateHighlightItem y = .ok y := by
  rw [validateHighlightItem_ok h]
  unfold validateHighlightItem
  simp only [propE, getField, List.foldl, Bind.bind, Except.bind, pure, Except.pure,
    JSValue.jget, String.reduceEq, if_true, if_false, ite_true, ite_false, reduceIte]
  rw [jsOr_idem (by decide), jsOr_idem (by decide), jsOr_idem (by decide), num_ite_idem]

theorem validateImprovementItem_fixed {v y : JSValue} (h : validateImprovementItem v = .ok y) :
    validateImprovementItem y = .ok y := by
  rw [validateImprovementItem_ok h]
  unfold validateImprovementItem
  simp only [propE, getField, List.foldl, Bind.bind, Except.bind, pure, Except.pure,
    JSValue.jget, String.reduceEq, if_true, if_false, ite_true, ite_false, reduceIte]
  rw [jsOr_idem (by decide), jsOr_idem (by decide), jsOr_idem (by decide),
    enum_ite_idem _ _ _ (by decide)]

theorem validateFlowItem_fixed {v y : JSValue} (h : validateFlowItem v = .ok y) :
    validateFlowItem y = .ok y := by
  rw [validateFlowItem_ok h]
  unfold validateFlowItem
  simp only [propE, getField, List.foldl, Bind.bind, Except.bind, pure, Except.pure,
    JSValue.jget, String.reduceEq, if_true, if_false, ite_true, ite_false, reduceIte]
  rw [jsOr_idem (by decide), jsOr_idem (by decide), jsOr_idem (by decide), arrSlice_idem]

theorem validateHighlights_ok {v r : JSValue} (h : validateHighlights v = .ok r) :
    ∃ ys, r = .arr ys ∧ ys.length ≤ 6 ∧ ∀ y ∈ ys, ∃ x, validateHighlightItem x = .ok y := by
  cases v with
  | arr xs =>
    simp only [validateHighlights] at h
    cases hm : mapE validateHighlightItem (xs.take 6) with
    | error e => rw [hm] at h; simp at h
    | ok ys =>
      rw [hm] at h
      simp at h
      refine ⟨ys, h.symm, ?_, ?_⟩
      · rw [mapE_ok_length hm]
        exact List.length_take_le _ _
      · intro y hy
        rcases mapE_ok_forall hm y hy with ⟨x, _, hx⟩
        exact ⟨x, hx⟩
  | undefined => exact ⟨[], by simpa [validateHighlights] using h.symm, by simp, by simp⟩
  | null => exact ⟨[], by simpa [validateHighlights] using h.symm, by simp, by simp⟩
  | bool b => exact ⟨[], by simpa [validateHighlights] using h.symm, by simp, by simp⟩
  | num q => exact ⟨[], by simpa [validateHighlights] using h.symm, by simp, by simp⟩
  | str s => exact ⟨[], by simpa [validateHighlights] using h.symm, by simp, by simp⟩
  | obj fs => exact ⟨[], by simpa [validateHighlights] using h.symm, by simp, by simp⟩

theorem validateHighlights_fixed {v r : JSValue} (h : validateHighlights v = .ok r) :
    validateHighlights r = .ok r := by
  rcases validateHighlights_ok h with ⟨ys, rfl, hlen, hitems⟩
  simp only [validateHighlights]
  rw [List.take_of_length_le hlen,
    mapE_ok_of_fixed (fun y hy => by
      rcases hitems y hy with ⟨x, hx⟩
      exact validateHighlightItem_fixed hx)]

theorem validateImprovements_ok {v r : JSValue} (h : validateImprovements v = .ok r) :
    ∃ ys, r = .arr ys ∧ ys.length ≤ 4 ∧ ∀ y ∈ ys, ∃ x, validateImprovementItem x = .ok y := by
  cases v with
  | arr xs =>
    simp only [validateImprovements] at h
    cases hm : mapE validateImprovementItem (xs.take 4) with
    | error e => rw [hm] at h; simp at h
    | ok ys =>
      rw [hm] at h
      simp at h
      refine ⟨ys, h.symm, ?_, ?_⟩
      · rw [mapE_ok_length hm]
        exact List.length_take_le _ _
      · intro y hy
        rcases mapE_ok_forall hm y hy with ⟨x, _, hx⟩
        exact ⟨x, hx⟩
  | undefined => exact ⟨[], by simpa [validateImprovements] using h.symm, by simp, by simp⟩
  | null => exact ⟨[], by simpa [validateImprovements] using h.symm, by simp, by simp⟩
  | bool b => exact ⟨[], by simpa [validateImprovements] using h.symm, by simp, by simp⟩
  | num q => exact ⟨[], by simpa [validateImprovements] using h.symm, by simp, by simp⟩
  | str s => exact ⟨[], by simpa [validateImprovements] using h.symm, by simp, by simp⟩
  | obj fs => exact ⟨[], by simpa [validateImprovements] using h.symm, by simp, by simp⟩

theorem validateImprovements_fixed {v r : JSValue} (h : validateImprovements v = .ok r) :
    validateImprovements r = .ok r := by
  rcases validateImprovements_ok h with ⟨ys, rfl, hlen, hitems⟩
  simp only [validateImprovements]
  rw [List.take_of_length_le hlen,
    mapE_ok_of_fixed (fun y hy => by
      rcases hitems y hy with ⟨x, hx⟩
      exact validateImprovementItem_fixed hx)]

theorem validateInterviewFlow_ok {v r : JSValue} (h : validateInterviewFlow v = .ok r) :
    ∃ ys, r = .arr ys ∧ ys.length ≤ 8 ∧ ∀ y ∈ ys, ∃ x, validateFlowItem x = .ok y := by
  cases v with
  | arr xs =>
    simp only [validateInterviewFlow] at h
    cases hm : mapE validateFlowItem (xs.take 8) with
    | error e => rw [hm] at h; simp at h
    | ok ys =>
      rw [hm] at h
      simp at h
      refine ⟨ys, h.symm, ?_, ?_⟩
      · rw [mapE_ok_length hm]
        exact List.length_take_le _ _
      · intro y hy
        rcases mapE_ok_forall hm y hy with ⟨x, _, hx⟩
        exact ⟨x, hx⟩
  | undefined => exact ⟨[], by simpa [validateInterviewFlow] using h.symm, by simp, by simp⟩
  | null => exact ⟨[], by simpa [validateInterviewFlow] using h.symm, by simp, by simp⟩
  | bool b => exact ⟨[], by simpa [validateInterviewFlow] using h.symm, by simp, by simp⟩
  | num q => exact ⟨[], by simpa [validateInterviewFlow] using h.symm, by simp, by simp⟩
  | str s => exact ⟨[], by simpa [validateInterviewFlow] using h.symm, by simp, by simp⟩
  | obj fs => exact ⟨[], by simpa [validateInterviewFlow] using h.symm, by simp, by simp⟩

theorem validateInterviewFlow_fixed {v r : JSValue} (h : validateInterviewFlow v = .ok r) :
    validateInterviewFlow r = .ok r := by
  rcases validateInterviewFlow_ok h with ⟨ys, rfl, hlen, hitems⟩
  simp only [validateInterviewFlow]
  rw [List.take_of_length_le hlen,
    mapE_ok_of_fixed (fun y hy => by
      rcases hitems y hy with ⟨x, hx⟩
      exact validateFlowItem_fixed hx)]

theorem recConfidence_idem (c : JSValue) : recConfidence (recConfidence c) = recConfidence c := by
  cases c <;> simp [recConfidence, clamp110_idem] <;> rfl

theorem recKeyStrengths_idem (k : JSValue) :
    recKeyStrengths (recKeyStrengths k) = recKeyStrengths k := by
  cases k <;> simp [recKeyStrengths, List.take_take]

theorem validateTechnicalAssessment_fixed (v : JSValue) :
    validateTechnicalAssessment (validateTechnicalAssessment v) = validateTechnicalAssessment v := by
  unfold validateTechnicalAssessment
  simp only [JSValue.optChain, getField, List.foldl, String.reduceEq, reduceIte,
    ite_true, ite_false]
  rw [enum_ite_idem _ _ _ (by decide), arrSlice_idem, arrSlice_idem, jsOr_idem (by decide)]

theorem validateCommunicationAnalysis_fixed (v : JSValue) :
    validateCommunicationAnalysis (validateCommunicationAnalysis v)
    = validateCommunicationAnalysis v := by
  unfold validateCommunicationAnalysis
  simp only [JSValue.optChain, getField, List.foldl, String.reduceEq, reduceIte,
    ite_true, ite_false]
  rw [enum_ite_idem _ _ _ (by decide), jsOr_idem (by decide), jsOr_idem (by decide),
    jsOr_idem (by decide)]

theorem validateEntities_fixed (v : JSValue) :
    validateEntities (validateEntities v) = validateEntities v := by
  unfold validateEntities
  simp only [JSValue.optChain, getField, List.foldl, String.reduceEq, reduceIte,
    ite_true, ite_false]
  rw [arrSlice_idem, arrSlice_idem, arrSlice_idem, arrSlice_idem]

theorem validateOverallRecommendation_fixed (v : JSValue) :
    validateOverallRecommendation (validateOverallRecommendation v)
    = validateOverallRecommendation v := by
  unfold validateOverallRecommendation
  simp only [JSValue.optChain, getField, List.foldl, String.reduceEq, reduceIte,
    ite_true, ite_false]
  rw [enum_ite_idem _ _ _ (by decide), recConfidence_idem, recKeyStrengths_idem,
    arrSlice_idem, jsOr_idem (by decide), jsOr_idem (by decide)]

theorem validateInterviewQuality_fixed (v : JSValue) :
    validateInterviewQuality (validateInterviewQuality v) = validateInterviewQuality v := by
  unfold validateInterviewQuality
  simp only [JSValue.optChain, getField, List.foldl, String.reduceEq, reduceIte,
    ite_true, ite_false]
  rw [jsOr_idem (by decide), arrSlice_idem, arrSlice_idem]

theorem validateTechnicalAssessment_level (t : JSValue) :
    isStrIn ((validateTechnicalAssessment t).jget "level")
      ["junior", "mid", "senior", "staff", "principal"] = true := by
  unfold validateTechnicalAssessment
  simp only [JSValue.jget, getField, List.foldl, String.reduceEq, reduceIte,
    ite_true, ite_false]
  exact enum_default_mem (by decide)

theorem validateCommunicationAnalysis_clarity (c : JSValue) :
    isStrIn ((validateCommunicationAnalysis c).jget "clarity")
      ["poor", "fair", "good", "excellent"] = true := by
  unfold validateCommunicationAnalysis
  simp only [JSValue.jget, getField, List.foldl, String.reduceEq, reduceIte,
    ite_true, ite_false]
  exact enum_default_mem (by decide)

theorem validateOverallRecommendation_decision (v : JSValue) :
    isStrIn ((validateOverallRecommendation v).jget "decision")
      ["strong_hire", "hire", "maybe", "no_hire"] = true := by
  unfold validateOverallRecommendation
  simp only [JSValue.jget, getField, List.foldl, String.reduceEq, reduceIte,
    ite_true, ite_false]
  exact enum_default_mem (by decide)

theorem validateImprovementItem_priority {x y : JSValue}
    (h : validateImprovementItem x = .ok y) :
    isStrIn (y.jget "priority") ["high", "medium", "low"] = true := by
  rw [validateImprovementItem_ok h]
  simp only [JSValue.jget, getField, List.foldl, String.reduceEq, reduceIte,
    ite_true, ite_false]
  exact enum_default_mem (by decide)

theorem validateAll_ok {p r : JSValue} (h : validateAll p = .ok r) :
    ∃ hRaw h1 iRaw i1 taRaw caRaw enRaw flRaw fl orRaw iqRaw,
      validateHighlights hRaw = .ok h1 ∧ validateImprovements iRaw = .ok i1 ∧
      validateInterviewFlow flRaw = .ok fl ∧
      r = .obj [
        ("highlights", h1),
        ("improvements", i1),
        ("technical_assessment", validateTechnicalAssessment taRaw),
        ("communication_analysis", validateCommunicationAnalysis caRaw),
        ("entities", validateEntities enRaw),
        ("interview_flow", fl),
        ("overall_recommendation", validateOverallRecommendation orRaw),
        ("interview_quality", validateInterviewQuality iqRaw)] := by
  unfold validateAll at h
  obtain ⟨hRaw, _, h⟩ := exbind_ok h
  obtain ⟨h1, hh1, h⟩ := exbind_ok h
  obtain ⟨iRaw, _, h⟩ := exbind_ok h
  obtain ⟨i1, hi1, h⟩ := exbind_ok h
  obtain ⟨taRaw, _, h⟩ := exbind_ok h
  obtain ⟨caRaw, _, h⟩ := exbind_ok h
  obtain ⟨enRaw, _, h⟩ := exbind_ok h
  obtain ⟨flRaw, _, h⟩ := exbind_ok h
  obtain ⟨fl, hfl, h⟩ := exbind_ok h
  obtain ⟨orRaw, _, h⟩ := exbind_ok h
  obtain ⟨iqRaw, _, h⟩ := exbind_ok h
  simp only [pure, Except.pure, Except.ok.injEq] at h
  exact ⟨hRaw, h1, iRaw, i1, taRaw, caRaw, enRaw, flRaw, fl, orRaw, iqRaw,
    hh1, hi1, hfl, h.symm⟩

theorem tryParse_ok {s : String} {r : JSValue} (h : tryParse s = .ok r) :
    ∃ p, parseJSON (extractJson s) = .ok p ∧ validateAll p = .ok r := by
  unfold tryParse at h
  cases hj : parseJSON (extractJson s) with
  | error e => rw [hj] at h; simp at h
  | ok p => rw [hj] at h; exact ⟨p, rfl, h⟩

theorem validateAll_ok_keys_enums {p r : JSValue} (h : validateAll p = .ok r) :
    hasAllKeys r = true ∧ checkedEnumsOK r = true := by
  obtain ⟨hRaw, h1, iRaw, i1, taRaw, caRaw, enRaw, flRaw, fl, orRaw, iqRaw,
    hh1, hi1, hfl, rfl⟩ := validateAll_ok h
  constructor
  · rfl
  · simp only [checkedEnumsOK, JSValue.jget, getField, List.foldl, String.reduceEq,
      reduceIte, ite_true, ite_false, Bool.and_eq_true]
    refine ⟨⟨⟨validateTechnicalAssessment_level _, validateCommunicationAnalysis_clarity _⟩,
      validateOverallRecommendation_decision _⟩, ?_⟩
    rcases validateImprovements_ok hi1 with ⟨ys, rfl, _, hitems⟩
    simp only [List.all_eq_true]
    intro y hy
    rcases hitems y hy with ⟨x, hx⟩
    exact validateImprovementItem_priority hx

theorem pavr_hasAllKeys (s t : String) : hasAllKeys (parseAndValidateResponse s t) = true := by
  unfold parseAndValidateResponse
  cases htp : tryParse s with
  | error e => rfl
  | ok r =>
    obtain ⟨p, _, hv⟩ := tryParse_ok htp
    exact (validateAll_ok_keys_enums hv).1

/-! ## Claims -/

/-- C1 counterexample: on the parse-failure fallback branch (here: empty raw
input), `technical_assessment.level` and `communication_analysis.clarity` are
the sentinel string `unknown`, which lies outside their respective enums — so
the claimed enum-validity on the fallback branch is false. -/
theorem C1_counterexample :
    ((parseAndValidateResponse "" "transcript").jget "technical_assessment").jget "level"
      = .str "unknown" ∧
    isStrIn (((parseAndValidateResponse "" "transcript").jget "technical_assessment").jget "level")
      ["junior", "mid", "senior", "staff", "principal"] = false ∧
    ((parseAndValidateResponse "" "transcript").jget "communication_analysis").jget "clarity"
      = .str "unknown" ∧
    isStrIn (((parseAndValidateResponse "" "transcript").jget "communication_analysis").jget "clarity")
      ["poor", "fair", "good", "excellent"] = false :=
  ⟨rfl, rfl, rfl, rfl⟩

/-- C1 (amended): for every raw input string, `parseAndValidateResponse` returns
an object with all eight top-level keys; moreover on the validated branch the
four code-checked enum fields (improvement priority, technical level,
communication clarity, recommendation decision) are enum-valid, while the
parse-failure branch returns the fixed fallback object (whose
`technical_assessment.level` and `communication_analysis.clarity` are the
out-of-enum sentinel `"unknown"`). -/
theorem C1_schema_keys_and_checked_enums (s t : String) :
    hasAllKeys (parseAndValidateResponse s t) = true ∧
    (parseAndValidateResponse s t = createFallbackAnalysis t s ∨
      checkedEnumsOK (parseAndValidateResponse s t) = true) := by
  refine ⟨pavr_hasAllKeys s t, ?_⟩
  unfold parseAndValidateResponse
  cases htp : tryParse s with
  | error e => exact Or.inl rfl
  | ok r =>
    obtain ⟨p, _, hv⟩ := tryParse_ok htp
    exact Or.inr (validateAll_ok_keys_enums hv).2

/-- C5: `parseAndValidateResponse` is total over arbitrary string input: every
input yields an object with all eight keys; when the try-block (extraction,
`JSON.parse`, per-field validation — including validator-internal throws such
as an array containing `null`) succeeds the result is that validated value, and
whenever it throws the result is exactly the structured fallback object. -/
theorem C5_normalizer_total (s t : String) :
    hasAllKeys (parseAndValidateResponse s t) = true ∧
    (∀ r, tryParse s = .ok r → parseAndValidateResponse s t = r) ∧
    ((tryParse s).isOk = false → parseAndValidateResponse s t = createFallbackAnalysis t s) := by
  refine ⟨pavr_hasAllKeys s t, ?_, ?_⟩
  · intro r htp
    unfold parseAndValidateResponse
    rw [htp]
  · intro hko
    unfold parseAndValidateResponse
    cases htp : tryParse s with
    | error e => rfl
    | ok r => rw [htp] at hko; simp [Except.isOk, Except.toBool] at hko

/-- C5 witness: a raw text whose JSON parses but whose `highlights` array
contains `null` makes the try-block throw inside `validateHighlights`; the
normalizer returns the fallback object rather than throwing. -/
theorem C5_normalizer_total_witness :
    (tryParse "\x7b\"highlights\": [null]\x7d").isOk = false ∧
    parseAndValidateResponse "\x7b\"highlights\": [null]\x7d" "t"
      = createFallbackAnalysis "t" "\x7b\"highlights\": [null]\x7d" :=
  ⟨by rfl, (C5_normalizer_total "\x7b\"highlights\": [null]\x7d" "t").2.2 (by rfl)⟩

/-- C6 counterexample: `validateHighlights` accepts a highlight whose category
is the non-enum string `"bogus"` and whose confidence is `5`, and passes both
through unchanged — the output category is outside the claimed enum and the
output confidence is outside `[0,1]`, so the claimed invariant is false. -/
theorem C6_counterexample :
    validateHighlights (.arr [.obj [("text", .str "strong answer"),
      ("category", .str "bogus"), ("confidence", .num 5), ("reasoning", .str "r")]])
    = .ok (.arr [.obj [("text", .str "strong answer"),
      ("category", .str "bogus"), ("confidence", .num 5), ("reasoning", .str "r")]]) ∧
    isStrIn (.str "bogus")
      ["communication", "technical_skill", "problem_solving", "leadership", "general"] = false ∧
    ¬((5 : ℚ) ≤ 1) :=
  ⟨rfl, rfl, by norm_num⟩

/-- C6 (amended): after normalization every highlight item has a truthy
category (the input's own category when truthy, else the default `"general"`)
and a numeric confidence (the input's own number when numeric, else `0.7`);
the code performs no enum-membership check on category and no `[0,1]` range
check on confidence. -/
theorem C6_category_confidence_normalization {v r : JSValue}
    (h : validateHighlights v = .ok r) :
    ∃ ys, r = .arr ys ∧ ∀ y ∈ ys,
      (y.jget "category").truthy = true ∧ isNum (y.jget "confidence") = true := by
  rcases validateHighlights_ok h with ⟨ys, rfl, _, hitems⟩
  refine ⟨ys, rfl, ?_⟩
  intro y hy
  rcases hitems y hy with ⟨x, hx⟩
  rw [validateHighlightItem_ok hx]
  constructor
  · simp only [JSValue.jget, getField, List.foldl, String.reduceEq, reduceIte,
      ite_true, ite_false]
    exact jsOr_truthy (by decide)
  · simp only [JSValue.jget, getField, List.foldl, String.reduceEq, reduceIte,
      ite_true, ite_false]
    exact num_default_isNum _ _

/-- C6 witness: a singleton highlight list with an empty item object normalizes
to the defaults, which satisfy the amended property. -/
theorem C6_category_confidence_normalization_witness :
    ∃ ys, (JSValue.arr [.obj [("text", .str "Analysis completed"),
        ("category", .str "general"), ("confidence", .num (mkRat 7 10)),
        ("reasoning", .str "Identified as positive indicator")]]) = .arr ys ∧
      ∀ y ∈ ys, (y.jget "category").truthy = true ∧ isNum (y.jget "confidence") = true :=
  C6_category_confidence_normalization (v := .arr [.obj []]) (by rfl)

/-- C7: for a highlights array of 20 items that normalizes successfully, the
output has length exactly 6 and item `i` of the output is the normalization of
input item `i` (`i < 6`): a pure truncation that keeps the first six in order,
drops the rest silently, and never pads. -/
theorem C7_truncation_bound (xs : List JSValue) (r : JSValue) (hlen : xs.length = 20)
    (h : validateHighlights (.arr xs) = .ok r) :
    ∃ ys, r = .arr ys ∧ ys.length = 6 ∧
      mapE validateHighlightItem (xs.take 6) = .ok ys ∧
      ∀ i, i < 6 →
        validateHighlightItem (xs.getD i .undefined) = .ok (ys.getD i .undefined) := by
  simp only [validateHighlights] at h
  cases hm : mapE validateHighlightItem (xs.take 6) with
  | error e => rw [hm] at h; simp at h
  | ok ys =>
    rw [hm] at h
    simp at h
    have hyslen : ys.length = 6 := by
      rw [mapE_ok_length hm, List.length_take, hlen]
      decide
    refine ⟨ys, h.symm, hyslen, rfl, ?_⟩
    intro i hi
    rcases mapE_ok_pointwise hm with ⟨_, hpt⟩
    have htke : i < (List.take 6 xs).length := by
      simp only [List.length_take, hlen]
      omega
    have hstep := hpt i (by omega) htke
    rw [List.getD_eq_getElem (l := ys) (d := .undefined) (by omega),
      List.getD_eq_getElem (l := xs) (d := .undefined) (by omega)]
    have hx : (List.take 6 xs).get ⟨i, htke⟩ = xs.get ⟨i, by omega⟩ := by
      simp [List.get_eq_getElem, List.getElem_take]
    rw [hx] at hstep
    simpa [List.get_eq_getElem] using hstep

/-- C7 witness: a 20-item highlights array of empty objects normalizes to
exactly 6 default items, the normalizations of the first six inputs in order. -/
theorem C7_truncation_bound_witness :
    ∃ ys, (JSValue.arr (List.replicate 6 (JSValue.obj [("text", .str "Analysis completed"),
        ("category", .str "general"), ("confidence", .num (mkRat 7 10)),
        ("reasoning", .str "Identified as positive indicator")]))) = .arr ys ∧ ys.length = 6 ∧
      mapE validateHighlightItem ((List.replicate 20 (JSValue.obj [])).take 6) = .ok ys ∧
      ∀ i, i < 6 → validateHighlightItem ((List.replicate 20 (JSValue.obj [])).getD i .undefined)
        = .ok (ys.getD i .undefined) :=
  C7_truncation_bound (List.replicate 20 (.obj []))
    (.arr (List.replicate 6 (.obj [("text", .str "Analysis completed"),
      ("category", .str "general"), ("confidence", .num (mkRat 7 10)),
      ("reasoning", .str "Identified as positive indicator")])))
    (by rfl) (by rfl)

/-- C8: `validateOverallRecommendation` coerces any non-enum decision to
`"maybe"` and clamps any numeric confidence into `[1,10]` via
`max 1 (min 10 ·)`. -/
theorem C8_enum_coercion_and_clamping (d : JSValue) (q : ℚ)
    (hd : isStrIn d ["strong_hire", "hire", "maybe", "no_hire"] = false) :
    (validateOverallRecommendation (.obj [("decision", d), ("confidence", .num q)])).jget
      "decision" = .str "maybe" ∧
    (validateOverallRecommendation (.obj [("decision", d), ("confidence", .num q)])).jget
      "confidence" = .num (clamp110 q) ∧
    1 ≤ clamp110 q ∧ clamp110 q ≤ 10 := by
  unfold validateOverallRecommendation
  simp only [JSValue.jget, JSValue.optChain, getField, List.foldl, String.reduceEq,
    reduceIte, ite_true, ite_false, hd, Bool.false_eq_true, recConfidence]
  exact ⟨trivial, trivial, clamp110_ge q, clamp110_le q⟩

/-- C8 witness: decision `"super_hire"` becomes `"maybe"`; confidence `15`
clamps to `10` and `-3` clamps to `1`. -/
theorem C8_enum_coercion_and_clamping_witness :
    (validateOverallRecommendation (.obj [("decision", .str "super_hire"),
      ("confidence", .num 15)])).jget "decision" = .str "maybe" ∧
    (validateOverallRecommendation (.obj [("decision", .str "super_hire"),
      ("confidence", .num 15)])).jget "confidence" = .num 10 ∧
    (validateOverallRecommendation (.obj [("decision", .str "super_hire"),
      ("confidence", .num (-3))])).jget "confidence" = .num 1 :=
  ⟨(C8_enum_coercion_and_clamping (.str "super_hire") 15 (by decide)).1,
   (C8_enum_coercion_and_clamping (.str "super_hire") 15 (by decide)).2.1,
   (C8_enum_coercion_and_clamping (.str "super_hire") (-3) (by decide)).2.1⟩

/-- C10: each per-field validator is idempotent: re-running a validator on its
own output returns that output unchanged (for the throwing validators, stated
through `Except.bind`, which covers every input — including ones the validator
throws on); defaulting is a pure function of the input. -/
theorem C10_validators_idempotent (v : JSValue) :
    (validateHighlights v).bind validateHighlights = validateHighlights v ∧
    (validateImprovements v).bind validateImprovements = validateImprovements v ∧
    (validateInterviewFlow v).bind validateInterviewFlow = validateInterviewFlow v ∧
    validateTechnicalAssessment (validateTechnicalAssessment v) = validateTechnicalAssessment v ∧
    validateCommunicationAnalysis (validateCommunicationAnalysis v)
      = validateCommunicationAnalysis v ∧
    validateEntities (validateEntities v) = validateEntities v ∧
    validateOverallRecommendation (validateOverallRecommendation v)
      = validateOverallRecommendation v ∧
    validateInterviewQuality (validateInterviewQuality v) = validateInterviewQuality v := by
  refine ⟨?_, ?_, ?_, validateTechnicalAssessment_fixed v,
    validateCommunicationAnalysis_fixed v, validateEntities_fixed v,
    validateOverallRecommendation_fixed v, validateInterviewQuality_fixed v⟩
  · cases hv : validateHighlights v with
    | error e => rfl
    | ok r => simpa [Except.bind] using validateHighlights_fixed hv
  · cases hv : validateImprovements v with
    | error e => rfl
    | ok r => simpa [Except.bind] using validateImprovements_fixed hv
  · cases hv : validateInterviewFlow v with
    | error e => rfl
    | ok r => simpa [Except.bind] using validateInterviewFlow_fixed hv

theorem pavr_fallback_of_not_ok {s t : String} (h : (tryParse s).isOk = false) :
    parseAndValidateResponse s t = createFallbackAnalysis t s := by
  unfold parseAndValidateResponse
  cases htp : tryParse s with
  | error e => rfl
  | ok r => rw [htp] at h; simp [Except.isOk, Except.toBool] at h

theorem runAttempts_entry_ok (env : Env) (transport : Nat → Except String FetchResponse)
    (transcript : String) (log : RunLog) :
    ((runAttempts env transport transcript MAX_RETRIES 1 log).1).isOk = true := by
  simp only [MAX_RETRIES, runAttempts]
  cases performAnalysis env transport transcript 1 with
  | ok r => rfl
  | error e =>
    simp only [runAttempts, reduceCtorEq, reduceIte, Nat.reduceEqDiff]
    cases performAnalysis env transport transcript 2 with
    | ok r => rfl
    | error e2 =>
      simp only [runAttempts, reduceCtorEq, reduceIte, Nat.reduceEqDiff]
      cases performAnalysis env transport transcript 3 with
      | ok r => rfl
      | error e3 => rfl

/-- C2 counterexample: a 50-character transcript consisting of two `x`
characters separated by 48 interior spaces has only 2 characters of
non-whitespace content (< 50), yet `analyzeTranscript` does not throw — the
guard measures `trim().length`, which keeps interior whitespace. -/
theorem C2_counterexample :
    nonWsCount "x                                                x" < 50 ∧
    (jsTrim "x                                                x").length = 50 ∧
    ((analyzeTranscript ⟨none, "2024-01-01T00:00:00.000Z", 0⟩
      (fun _ => .error "network unavailable") "x                                                x").1).isOk = true :=
  ⟨by decide, by decide, by decide⟩

/-- C2 (amended): `analyzeTranscript` throws the invalid-input error exactly
when the transcript is empty or its trimmed length (leading/trailing
whitespace removed; interior whitespace still counts) is below 50, and then
with zero transport calls and zero backoff delay; for every other input it
never throws (all remaining branches return a value). -/
theorem C2_short_input_rejection (env : Env) (transport : Nat → Except String FetchResponse)
    (transcript : String) :
    ((transcript = "" ∨ (jsTrim transcript).length < 50) →
      analyzeTranscript env transport transcript
        = (.error "Transcript too short or empty for meaningful analysis", ⟨0, 0⟩)) ∧
    (¬(transcript = "" ∨ (jsTrim transcript).length < 50) →
      ((analyzeTranscript env transport transcript).1).isOk = true) := by
  constructor
  · intro h
    unfold analyzeTranscript
    split
    · rfl
    · rename_i hcond
      exfalso
      rcases h with h | h <;> simp [h] at hcond
  · intro h
    push_neg at h
    obtain ⟨h1, h2⟩ := h
    unfold analyzeTranscript
    split
    · rename_i hcond
      exfalso
      simp only [Bool.or_eq_true, decide_eq_true_eq] at hcond
      rcases hcond with hc | hc
      · exact h1 hc
      · omega
    · split
      · rfl
      · exact runAttempts_entry_ok env transport transcript ⟨0, 0⟩

/-- C2 witness: a genuinely short transcript is rejected with the invalid-input
error, zero transport calls and zero delay. -/
theorem C2_short_input_rejection_witness :
    analyzeTranscript ⟨none, "2024-01-01T00:00:00.000Z", 0⟩
      (fun _ => .error "network unavailable") "abc"
      = (.error "Transcript too short or empty for meaningful analysis", ⟨0, 0⟩) :=
  (C2_short_input_rejection ⟨none, "2024-01-01T00:00:00.000Z", 0⟩
    (fun _ => .error "network unavailable") "abc").1 (Or.inr (by decide))

theorem generateDemoAnalysis_demo_mode (t now : String) :
    ((generateDemoAnalysis t now).jget "metadata").jget "demo_mode" = .bool true := rfl

/-- C9: with the API key unset or equal to the placeholder sentinel, a valid
transcript is answered by the offline demo generator with zero transport calls
and zero delay, and the demo result's metadata carries `demo_mode = true`. -/
theorem C9_no_credentials_demo (env : Env) (transport : Nat → Except String FetchResponse)
    (transcript : String)
    (hk : env.apiKey = none ∨ env.apiKey = some "your_openrouter_api_key_here")
    (hlen : ¬(transcript = "" ∨ (jsTrim transcript).length < 50)) :
    analyzeTranscript env transport transcript
      = (.ok (generateDemoAnalysis transcript env.now), ⟨0, 0⟩) ∧
    ((generateDemoAnalysis transcript env.now).jget "metadata").jget "demo_mode" = .bool true := by
  refine ⟨?_, generateDemoAnalysis_demo_mode _ _⟩
  unfold analyzeTranscript
  split
  · rename_i hcond
    exfalso
    simp only [Bool.or_eq_true, decide_eq_true_eq] at hcond
    exact hlen hcond
  · split
    · rfl
    · rename_i hcond2
      exfalso
      rcases hk with hk | hk <;> simp [keyConfigured, hk] at hcond2

/-- C9 witness: key absent, 60-character transcript — the demo result is
returned immediately with no transport call and no delay. -/
theorem C9_no_credentials_demo_witness :
    analyzeTranscript ⟨none, "2024-01-01T00:00:00.000Z", 0⟩ (fun _ => .error "net") "aaaaaaaaaaaaaaaaaaaaaaaaaaaaaaaaaaaaaaaaaaaaaaaaaaaaaaaaaaaa"
      = (.ok (generateDemoAnalysis "aaaaaaaaaaaaaaaaaaaaaaaaaaaaaaaaaaaaaaaaaaaaaaaaaaaaaaaaaaaa" "2024-01-01T00:00:00.000Z"), ⟨0, 0⟩) ∧
    ((generateDemoAnalysis "aaaaaaaaaaaaaaaaaaaaaaaaaaaaaaaaaaaaaaaaaaaaaaaaaaaaaaaaaaaa" "2024-01-01T00:00:00.000Z").jget "metadata").jget "demo_mode"
      = .bool true :=
  C9_no_credentials_demo ⟨none, "2024-01-01T00:00:00.000Z", 0⟩ (fun _ => .error "net") "aaaaaaaaaaaaaaaaaaaaaaaaaaaaaaaaaaaaaaaaaaaaaaaaaaaaaaaaaaaa"
    (Or.inl rfl) (by decide)

theorem performAnalysis_transport_fail (env : Env)
    (transport : Nat → Except String FetchResponse) (transcript : String) (n : Nat)
    (h : (∃ e, transport n = .error e) ∨ (∃ r, transport n = .ok r ∧ r.ok = false)) :
    ∃ e, performAnalysis env transport transcript n = .error e := by
  rcases h with ⟨e, he⟩ | ⟨r, hr, hok⟩
  · exact ⟨e, by unfold performAnalysis; rw [he]⟩
  · refine ⟨"OpenRouter API error", ?_⟩
    unfold performAnalysis
    rw [hr]
    simp [hok]

/-- C3: with credentials configured and all 3 upstream attempts failing at the
transport level (connection error or non-2xx status), `analyzeTranscript` does not throw: it returns the offline
demo result (the same generator as the no-credentials path, `demo_mode = true`)
after exactly 3 transport calls and 1000+2000 ms of linear backoff. -/
theorem C3_retry_exhaustion_demo (env : Env) (transport : Nat → Except String FetchResponse)
    (transcript : String)
    (hk : keyConfigured env.apiKey = true)
    (hlen : ¬(transcript = "" ∨ (jsTrim transcript).length < 50))
    (hfail : ∀ n, 1 ≤ n → n ≤ 3 →
      (∃ e, transport n = .error e) ∨ (∃ r, transport n = .ok r ∧ r.ok = false)) :
    analyzeTranscript env transport transcript
      = (.ok (generateDemoAnalysis transcript env.now), ⟨3, 3000⟩) ∧
    ((generateDemoAnalysis transcript env.now).jget "metadata").jget "demo_mode"
      = .bool true := by
  refine ⟨?_, generateDemoAnalysis_demo_mode _ _⟩
  obtain ⟨e1, he1⟩ := performAnalysis_transport_fail env transport transcript 1
    (hfail 1 (by omega) (by omega))
  obtain ⟨e2, he2⟩ := performAnalysis_transport_fail env transport transcript 2
    (hfail 2 (by omega) (by omega))
  obtain ⟨e3, he3⟩ := performAnalysis_transport_fail env transport transcript 3
    (hfail 3 (by omega) (by omega))
  have hp1 := he1
  have hp2 := he2
  have hp3 := he3
  unfold analyzeTranscript
  split
  · rename_i hcond
    exfalso
    simp only [Bool.or_eq_true, decide_eq_true_eq] at hcond
    exact hlen hcond
  · split
    · rename_i hcond2
      exfalso
      simp [hk] at hcond2
    · simp only [MAX_RETRIES, runAttempts, hp1, hp2, hp3, reduceIte, Nat.reduceEqDiff,
        RETRY_DELAY]

/-- C3 witness: a transport that always fails with a connection reset, a
configured key and a 60-character transcript. -/
theorem C3_retry_exhaustion_demo_witness :
    analyzeTranscript ⟨some "sk-test", "2024-01-01T00:00:00.000Z", 0⟩
      (fun _ => .error "ECONNRESET") "aaaaaaaaaaaaaaaaaaaaaaaaaaaaaaaaaaaaaaaaaaaaaaaaaaaaaaaaaaaa"
      = (.ok (generateDemoAnalysis "aaaaaaaaaaaaaaaaaaaaaaaaaaaaaaaaaaaaaaaaaaaaaaaaaaaaaaaaaaaa" "2024-01-01T00:00:00.000Z"), ⟨3, 3000⟩) ∧
    ((generateDemoAnalysis "aaaaaaaaaaaaaaaaaaaaaaaaaaaaaaaaaaaaaaaaaaaaaaaaaaaaaaaaaaaa" "2024-01-01T00:00:00.000Z").jget "metadata").jget "demo_mode"
      = .bool true :=
  C3_retry_exhaustion_demo ⟨some "sk-test", "2024-01-01T00:00:00.000Z", 0⟩
    (fun _ => .error "ECONNRESET") "aaaaaaaaaaaaaaaaaaaaaaaaaaaaaaaaaaaaaaaaaaaaaaaaaaaaaaaaaaaa" (by decide) (by decide)
    (fun n _ _ => Or.inl ⟨"ECONNRESET", rfl⟩)

/-- C4: with credentials configured, if the first attempt's transport call
succeeds but the returned text is not parseable JSON, the orchestrator returns
on that same attempt a success carrying the fallback-analysis object: exactly
one transport call, no retry and no backoff delay — only transport-level
failure triggers a retry. -/
theorem C4_parse_failure_is_success (env : Env) (transport : Nat → Except String FetchResponse)
    (transcript text : String)
    (hk : keyConfigured env.apiKey = true)
    (hlen : ¬(transcript = "" ∨ (jsTrim transcript).length < 50))
    (hresp : transport 1 = .ok (mkReply text))
    (htrim : jsTrim text ≠ "")
    (hparse : (tryParse (jsTrim text)).isOk = false) :
    analyzeTranscript env transport transcript
      = (.ok (liveResult env transcript 1
          (createFallbackAnalysis transcript (jsTrim text)) .undefined), ⟨1, 0⟩) := by
  have hp1 : performAnalysis env transport transcript 1
      = .ok (liveResult env transcript 1
          (createFallbackAnalysis transcript (jsTrim text)) .undefined) := by
    unfold performAnalysis
    rw [hresp]
    simp only [mkReply, propE, getField, List.foldl, List.getD, List.get?, Option.getD_some,
      String.reduceEq, reduceIte, ite_true, ite_false, JSValue.truthy, jsIndex,
      JSValue.optChain, Bool.not_true, Bool.not_false, decide_True, decide_False,
      Bool.false_eq_true, Bool.true_eq_false, if_true, if_false, decide_eq_true_eq,
      String.reduceNe, ne_eq, reduceCtorEq]
    rw [if_neg htrim, pavr_fallback_of_not_ok hparse]
  unfold analyzeTranscript
  split
  · rename_i hcond
    exfalso
    simp only [Bool.or_eq_true, decide_eq_true_eq] at hcond
    exact hlen hcond
  · split
    · rename_i hcond2
      exfalso
      simp [hk] at hcond2
    · simp only [MAX_RETRIES, runAttempts, hp1]

/-- C4 witness: the transport succeeds on attempt 1 with non-JSON content; the
orchestrator returns a success wrapping the fallback analysis after exactly one
call and no delay. -/
theorem C4_parse_failure_is_success_witness :
    analyzeTranscript ⟨some "sk-test", "2024-01-01T00:00:00.000Z", 0⟩
      (fun _ => .ok (mkReply "no json here")) "aaaaaaaaaaaaaaaaaaaaaaaaaaaaaaaaaaaaaaaaaaaaaaaaaaaaaaaaaaaa"
      = (.ok (liveResult ⟨some "sk-test", "2024-01-01T00:00:00.000Z", 0⟩ "aaaaaaaaaaaaaaaaaaaaaaaaaaaaaaaaaaaaaaaaaaaaaaaaaaaaaaaaaaaa" 1
          (createFallbackAnalysis "aaaaaaaaaaaaaaaaaaaaaaaaaaaaaaaaaaaaaaaaaaaaaaaaaaaaaaaaaaaa" (jsTrim "no json here")) .undefined), ⟨1, 0⟩) :=
  C4_parse_failure_is_success ⟨some "sk-test", "2024-01-01T00:00:00.000Z", 0⟩
    (fun _ => .ok (mkReply "no json here")) "aaaaaaaaaaaaaaaaaaaaaaaaaaaaaaaaaaaaaaaaaaaaaaaaaaaaaaaaaaaa" "no json here"
    (by decide) (by decide) rfl (by decide) (by decide)

/-- C4 counterexample to the "only transport-level failure triggers a retry"
clause: a transport that always succeeds at the transport level (HTTP 200,
`ok = true`) but returns a JSON body with no `choices` makes every attempt
throw the invalid-structure error, so the loop retries and exhausts all 3
calls — a retry without any transport-level failure. -/
theorem C4_counterexample :
    (∀ n : Nat, ∃ r : FetchResponse,
      (fun _ : Nat => (Except.ok (⟨true, 200, "", JSValue.obj []⟩ : FetchResponse) :
        Except String FetchResponse)) n = .ok r ∧ r.ok = true) ∧
    ((analyzeTranscript ⟨some "sk-test", "2024-01-01T00:00:00.000Z", 0⟩
      (fun _ => .ok ⟨true, 200, "", .obj []⟩) "aaaaaaaaaaaaaaaaaaaaaaaaaaaaaaaaaaaaaaaaaaaaaaaaaaaaaaaaaaaa").2).calls = 3 :=
  ⟨fun _ => ⟨⟨true, 200, "", .obj []⟩, rfl, rfl⟩, by decide⟩
